import Mathlib

/-!
Shallow embedding of the tax-calculation engine of the
`autonomous-tax-ai-agent` repository.

Monetary amounts, rates and percentages are modelled as rationals (ℚ);
JavaScript numbers behave as exact rationals on all inputs considered
here. `Infinity` upper bounds are modelled as `Option ℚ` with `none`.

Two implementations exist in the source:
  * the client-side calculators in `src/TaxCalculator.jsx`
    (`calculateMaltaIncomeTax`, `calculateFranceIncomeTax`,
    `calculateGenericIncomeTax`, `calculateVAT`, `calculateCorporateTax`,
    `calculatePropertyTax`, `getMarginalRate`);
  * the `income_tax` Supabase edge function (src/unnamed/part_010), which
    uses a remaining-income loop over `{limit, rate}` brackets.
-/

namespace TaxAgent

/-- A tax bracket as in `TaxCalculator.jsx`:
`{ min, max, rate }` with `max = Infinity` modelled as `none`.
Rates are percentages (e.g. `25` for 25%). -/
structure Bracket where
  min : ℚ
  max : Option ℚ
  rate : ℚ
deriving Repr, DecidableEq

/-- `Math.min(income, bracket.max)` where `max` may be `Infinity`. -/
def minCap (base : ℚ) : Option ℚ → ℚ
  | some m => min base m
  | none => base

/-- Width the jsx loop assigns a bracket when `income > bracket.min`:
`Math.min(income, bracket.max) - bracket.min + 1`. -/
def widthOf (base : ℚ) (b : Bracket) : ℚ :=
  minCap base b.max - b.min + 1

/-- One entry of the jsx breakdown list: `{ taxableAmount, tax }`
(the display-only `range` and `rate` strings are omitted). -/
structure Contribution where
  taxableAmount : ℚ
  tax : ℚ
deriving Repr, DecidableEq

/-- The bracket loop of `calculateMaltaIncomeTax` / `calculateFranceIncomeTax`
(`src/TaxCalculator.jsx` lines 128–143 and 185–200): iterate the brackets in
order; for each bracket with `income > bracket.min`, add
`width * rate / 100` to the tax and, when the width is positive, push a
breakdown entry. Returns `(tax, breakdown)`. -/
def evalBrackets (base : ℚ) : List Bracket → ℚ × List Contribution
  | [] => (0, [])
  | b :: rest =>
    let tail := evalBrackets base rest
    if base > b.min then
      let w := widthOf base b
      let t := w * (b.rate / 100)
      (t + tail.1, (if w > 0 then [⟨w, t⟩] else []) ++ tail.2)
    else
      tail

/-- The loop condition of `getMarginalRate`:
`income >= bracket.min && income <= bracket.max` (`Infinity` compares true). -/
def inBracket (b : Bracket) (income : ℚ) : Bool :=
  decide (b.min ≤ income) &&
    (match b.max with
      | some m => decide (income ≤ m)
      | none => true)

/-- The `for` loop of `getMarginalRate`: return the first matching
bracket's rate, else a fallback. -/
def marginalLoop (income fallback : ℚ) : List Bracket → ℚ
  | [] => fallback
  | b :: rest =>
    if inBracket b income then b.rate else marginalLoop income fallback rest

/-- `getMarginalRate` (`src/TaxCalculator.jsx` lines 304–311): the rate of
the first bracket with `income >= min && income <= max`; if none matches,
the last bracket's rate (0 for an empty list, which never occurs). -/
def getMarginalRate (income : ℚ) (brackets : List Bracket) : ℚ :=
  marginalLoop income (((brackets.getLast?).map Bracket.rate).getD 0) brackets

/-- Malta brackets hard-coded in `calculateMaltaIncomeTax`. -/
def maltaBrackets : List Bracket :=
  [⟨0, some 9100, 0⟩,
   ⟨9101, some 14500, 15⟩,
   ⟨14501, some 19500, 25⟩,
   ⟨19501, some 60000, 25⟩,
   ⟨60001, none, 35⟩]

/-- France brackets hard-coded in `calculateFranceIncomeTax`. -/
def franceBrackets : List Bracket :=
  [⟨0, some 10777, 0⟩,
   ⟨10778, some 27478, 11⟩,
   ⟨27479, some 78570, 30⟩,
   ⟨78571, some 168994, 41⟩,
   ⟨168995, none, 45⟩]

/-- The fields of the jsx income-tax result object that the claims are
about (display-only fields such as `jurisdiction`/`currency` omitted;
`calculateGenericIncomeTax` returns no breakdown, modelled as `[]`). -/
structure IncomeTaxResult where
  grossIncome : ℚ
  totalTax : ℚ
  netIncome : ℚ
  effectiveRate : ℚ
  marginalRate : ℚ
  breakdown : List Contribution
deriving Repr, DecidableEq

/-- `calculateMaltaIncomeTax` (`src/TaxCalculator.jsx` lines 116–164). -/
def calculateMaltaIncomeTax (income : ℚ) (isMarried : Bool) (dependents : ℕ) :
    IncomeTaxResult :=
  let tax := (evalBrackets income maltaBrackets).1
  let breakdown := (evalBrackets income maltaBrackets).2
  let allowances : ℚ := (if isMarried then 600 else 0) + dependents * 300
  let finalTax := max 0 (tax - allowances)
  { grossIncome := income
    totalTax := finalTax
    netIncome := income - finalTax
    effectiveRate := if income > 0 then finalTax / income * 100 else 0
    marginalRate := getMarginalRate income maltaBrackets
    breakdown := breakdown }

/-- The Malta allowance amount (`isMarried` adds 600, each dependent 300). -/
def maltaAllowances (isMarried : Bool) (dependents : ℕ) : ℚ :=
  (if isMarried then 600 else 0) + dependents * 300

/-- The France family-quotient part count: `1` (or `2` when married)
plus `0.5` per dependent. -/
def franceParts (isMarried : Bool) (dependents : ℕ) : ℚ :=
  (if isMarried then 2 else 1) + dependents * (1/2)

/-- `calculateFranceIncomeTax` (`src/TaxCalculator.jsx` lines 166–216). -/
def calculateFranceIncomeTax (income : ℚ) (isMarried : Bool) (dependents : ℕ) :
    IncomeTaxResult :=
  let parts := franceParts isMarried dependents
  let quotientIncome := income / parts
  let tax := (evalBrackets quotientIncome franceBrackets).1
  let breakdown := (evalBrackets quotientIncome franceBrackets).2
  let finalTax := tax * parts
  { grossIncome := income
    totalTax := finalTax
    netIncome := income - finalTax
    effectiveRate := if income > 0 then finalTax / income * 100 else 0
    marginalRate := getMarginalRate quotientIncome franceBrackets
    breakdown := breakdown }

/-- `calculateGenericIncomeTax` (`src/TaxCalculator.jsx` lines 218–235). -/
def calculateGenericIncomeTax (income : ℚ) (isMarried : Bool) (dependents : ℕ) :
    IncomeTaxResult :=
  let rate : ℚ := if income ≤ 50000 then 20 else if income ≤ 100000 then 30 else 40
  let tax := income * (rate / 100)
  let allowances : ℚ := (if isMarried then 2000 else 1000) + dependents * 500
  let finalTax := max 0 (tax - allowances)
  { grossIncome := income
    totalTax := finalTax
    netIncome := income - finalTax
    effectiveRate := if income > 0 then finalTax / income * 100 else 0
    marginalRate := rate
    breakdown := [] }

/-- `calculateIncomeTax` (`src/TaxCalculator.jsx` lines 102–114): route on
the jurisdiction string. -/
def calculateIncomeTax (jurisdiction : String) (income : ℚ)
    (isMarried : Bool) (dependents : ℕ) : IncomeTaxResult :=
  if jurisdiction = "MT" then calculateMaltaIncomeTax income isMarried dependents
  else if jurisdiction = "FR" then calculateFranceIncomeTax income isMarried dependents
  else calculateGenericIncomeTax income isMarried dependents

/-- `calculateVAT` result object (`src/TaxCalculator.jsx` lines 237–252). -/
structure VATResult where
  netAmount : ℚ
  vatRate : ℚ
  vatAmount : ℚ
  totalAmount : ℚ
deriving Repr, DecidableEq

/-- `calculateVAT`. -/
def calculateVAT (amount rate : ℚ) : VATResult :=
  let vatAmount := amount * (rate / 100)
  { netAmount := amount
    vatRate := rate
    vatAmount := vatAmount
    totalAmount := amount + vatAmount }

/-- `calculateCorporateTax` result object (`src/TaxCalculator.jsx` lines 254–280). -/
structure CorporateTaxResult where
  grossProfit : ℚ
  businessExpenses : ℚ
  taxableProfit : ℚ
  corporateTaxRate : ℚ
  corporateTax : ℚ
  netProfit : ℚ
deriving Repr, DecidableEq

/-- `calculateCorporateTax`: `taxableProfit = max(0, profit - expenses)`;
rate 35 for MT, `taxableProfit <= 42500 ? 15 : 25` for FR, else 25;
tax is the whole taxable profit at that single rate. -/
def calculateCorporateTax (jurisdiction : String) (profit expenses : ℚ) :
    CorporateTaxResult :=
  let taxableProfit := max 0 (profit - expenses)
  let rate : ℚ :=
    if jurisdiction = "MT" then 35
    else if jurisdiction = "FR" then (if taxableProfit ≤ 42500 then 15 else 25)
    else 25
  let tax := taxableProfit * (rate / 100)
  { grossProfit := profit
    businessExpenses := expenses
    taxableProfit := taxableProfit
    corporateTaxRate := rate
    corporateTax := tax
    netProfit := taxableProfit - tax }

/-- `calculatePropertyTax` result object (`src/TaxCalculator.jsx` lines 282–302). -/
structure PropertyTaxResult where
  propertyValue : ℚ
  taxRate : ℚ
  propertyTax : ℚ
  isFirstTimeBuyer : Bool
deriving Repr, DecidableEq

/-- `calculatePropertyTax`: a single flat rate — for MT, `0` when
`isFirstTimeBuyer` else `5`; otherwise `3` — applied to the whole value. -/
def calculatePropertyTax (jurisdiction : String) (value : ℚ)
    (isFirstTimeBuyer : Bool) : PropertyTaxResult :=
  let rate : ℚ :=
    if jurisdiction = "MT" then (if isFirstTimeBuyer then 0 else 5) else 3
  { propertyValue := value
    taxRate := rate
    propertyTax := value * (rate / 100)
    isFirstTimeBuyer := isFirstTimeBuyer }

/-- Result of the client `calculateTax` dispatcher, one constructor per
branch of the `switch` plus the `default` error object. -/
inductive ClientResult where
  | income : IncomeTaxResult → ClientResult
  | vat : VATResult → ClientResult
  | corporate : CorporateTaxResult → ClientResult
  | property : PropertyTaxResult → ClientResult
  | error : String → ClientResult
deriving Repr, DecidableEq

/-- Is the dispatcher result the `default` error object? -/
def ClientResult.isError : ClientResult → Bool
  | .error _ => true
  | _ => false

/-- `calculateTax` (`src/TaxCalculator.jsx` lines 66–100) together with the
per-branch form parsing: each numeric form field is read with
`parseFloat(...) || 0` (resp. `parseInt`), so a missing or unparseable
field (`none`) is coerced to 0.  No branch validates its inputs; only an
unknown `calculationType` produces an error. -/
def calculateTaxClient (calculationType jurisdiction : String)
    (incomeField : Option ℚ) (isMarried : Bool) (dependentsField : Option ℕ)
    (businessExpensesField vatAmountField vatRateField propertyValueField : Option ℚ)
    (isFirstTimeBuyer : Bool) : ClientResult :=
  let income := incomeField.getD 0
  let dependents := dependentsField.getD 0
  if calculationType = "income" then
    .income (calculateIncomeTax jurisdiction income isMarried dependents)
  else if calculationType = "vat" then
    .vat (calculateVAT (vatAmountField.getD 0) (vatRateField.getD 0))
  else if calculationType = "corporate" then
    .corporate (calculateCorporateTax jurisdiction income (businessExpensesField.getD 0))
  else if calculationType = "property" then
    .property (calculatePropertyTax jurisdiction (propertyValueField.getD 0) isFirstTimeBuyer)
  else
    .error "Invalid calculation type"

/-- A bracket of the `income_tax` edge function (src/unnamed/part_010):
`{ limit, rate }` with cumulative upper `limit` (`Infinity` = `none`) and
rate as a fraction (e.g. `0.15`). -/
structure EdgeBracket where
  limit : Option ℚ
  rate : ℚ
deriving Repr, DecidableEq

/-- Single-status Malta 2024 brackets of the edge function. -/
def edgeSingleBrackets : List EdgeBracket :=
  [⟨some 9100, 0⟩,
   ⟨some 14500, 15/100⟩,
   ⟨some 19500, 25/100⟩,
   ⟨some 60000, 25/100⟩,
   ⟨none, 35/100⟩]

/-- Married-status Malta 2024 brackets of the edge function. -/
def edgeMarriedBrackets : List EdgeBracket :=
  [⟨some 12700, 0⟩,
   ⟨some 21200, 15/100⟩,
   ⟨some 28700, 25/100⟩,
   ⟨some 60000, 25/100⟩,
   ⟨none, 35/100⟩]

/-- The edge-function bracket loop: walks the brackets keeping
`prev_limit` and `remaining_income`; stops when `remaining_income <= 0`;
each step takes `min(remaining, limit - prev_limit)` (the whole remainder
for the unbounded bracket), adds `taxable * rate` when positive, and
subtracts the taxable width from the remainder. Returns `tax_due`. -/
def edgeLoop (prevLimit remaining : ℚ) : List EdgeBracket → ℚ
  | [] => 0
  | b :: rest =>
    if remaining ≤ 0 then 0
    else
      let taxable :=
        match b.limit with
        | some l => min remaining (l - prevLimit)
        | none => remaining
      (if taxable > 0 then taxable * b.rate else 0) +
        edgeLoop (b.limit.getD prevLimit) (remaining - taxable) rest

/-- `Math.round(x * 100) / 100`, rounding to two decimals;
`Math.round` is `⌊x + 1/2⌋`, exactly Lean's `round` on ℚ. -/
def roundTo2 (x : ℚ) : ℚ := (round (x * 100) : ℤ) / 100

/-- The fields of the edge-function `income_tax` result the claims are
about (breakdown strings and the calculation date omitted). -/
structure EdgeResult where
  annual_income : ℚ
  tax_due : ℚ
  effective_rate : ℚ
deriving Repr, DecidableEq

/-- The `income_tax` calculation of the edge function
(src/unnamed/part_010 lines 181–251): validation
`if (!annual_income || annual_income <= 0)` returns a 400 error — for a
numeric input this is exactly `annual_income ≤ 0`; otherwise the bracket
set is chosen by `marital_status === 'single'` and the loop runs, with
`tax_due` and `effective_rate` rounded to two decimals. -/
def edgeIncomeTax (annual_income : ℚ) (marital_status : String) :
    Except String EdgeResult :=
  if annual_income ≤ 0 then
    .error "Valid annual income is required"
  else
    let brackets :=
      if marital_status = "single" then edgeSingleBrackets else edgeMarriedBrackets
    let tax_due := edgeLoop 0 annual_income brackets
    .ok { annual_income := annual_income
          tax_due := roundTo2 tax_due
          effective_rate := roundTo2 (tax_due / annual_income * 100) }

/-! ### Helper predicates and closed forms for the jsx bracket loop -/

/-- A bracket whose finite upper bound is at least its lower bound
(true of every bracket hard-coded in the source). -/
def WellFormed (b : Bracket) : Prop :=
  match b.max with
  | some u => b.min ≤ u
  | none => True

/-- The width formula the spec ascribes to the evaluator, taken verbatim
from the claim wording: `min(base, upperBound) - lowerBound` clamped to
`[0, upperBound - lowerBound]`; for the unbounded last bracket,
`max(0, base - lowerBound)`. -/
def claimWidth (base : ℚ) (b : Bracket) : ℚ :=
  match b.max with
  | some u => min (max (min base u - b.min) 0) (u - b.min)
  | none => max 0 (base - b.min)

/-- The rate of the last bracket of a sequence (`brackets[length-1].rate`). -/
def lastRate (bs : List Bracket) : ℚ :=
  ((bs.getLast?).map Bracket.rate).getD 0

/-- Does `x` exceed every finite upper bound of the sequence? -/
def exceedsAllFinite (x : ℚ) (bs : List Bracket) : Bool :=
  bs.all fun b =>
    match b.max with
    | some m => decide (m < x)
    | none => true

/-- The marginal-rate claim, taken verbatim from its wording: the reported
marginal rate equals the rate of a bracket containing the base, or the
last bracket's rate when the base exceeds all finite upper bounds. -/
def marginalClaimHolds (q : ℚ) (bs : List Bracket) : Bool :=
  (bs.any fun b => inBracket b q && decide (getMarginalRate q bs = b.rate)) ||
    (exceedsAllFinite q bs && decide (getMarginalRate q bs = lastRate bs))

/-- The width the jsx loop actually assigns, as a per-bracket closed form:
`min(base, upperBound) - lowerBound + 1` when `base > lowerBound`
(`base - lowerBound + 1` for the unbounded bracket), else `0`. -/
def amendedWidth (base : ℚ) (b : Bracket) : ℚ :=
  if b.min < base then minCap base b.max - b.min + 1 else 0

lemma amendedWidth_eq_widthOf {base : ℚ} {b : Bracket} (h : b.min < base) :
    amendedWidth base b = widthOf base b := by
  simp [amendedWidth, widthOf, h]

lemma min_le_minCap {base : ℚ} {b : Bracket} (hw : WellFormed b)
    (h : b.min < base) : b.min ≤ minCap base b.max := by
  cases hmax : b.max with
  | some u =>
    have hu : b.min ≤ u := by simpa [WellFormed, hmax] using hw
    simp [minCap, le_min_iff]
    exact ⟨h.le, hu⟩
  | none => simpa [minCap] using h.le

lemma widthOf_pos {base : ℚ} {b : Bracket} (hw : WellFormed b)
    (h : b.min < base) : 0 < widthOf base b := by
  have := min_le_minCap hw h
  simp only [widthOf]
  linarith

lemma minCap_mono {a c : ℚ} (h : a ≤ c) (o : Option ℚ) :
    minCap a o ≤ minCap c o := by
  cases o with
  | some u => exact min_le_min h le_rfl
  | none => exact h

lemma amendedWidth_nonneg {base : ℚ} {b : Bracket} (hw : WellFormed b) :
    0 ≤ amendedWidth base b := by
  by_cases h : b.min < base
  · rw [amendedWidth_eq_widthOf h]; exact (widthOf_pos hw h).le
  · simp [amendedWidth, h]

lemma amendedWidth_mono {a c : ℚ} {b : Bracket} (hw : WellFormed b)
    (hac : a ≤ c) : amendedWidth a b ≤ amendedWidth c b := by
  by_cases ha : b.min < a
  · have hc : b.min < c := lt_of_lt_of_le ha hac
    simp only [amendedWidth, ha, hc, if_true]
    have := minCap_mono hac b.max
    linarith
  · simp only [amendedWidth, ha, if_false]
    exact amendedWidth_nonneg hw

/-- Closed form for the accumulated tax of the jsx bracket loop. -/
lemma evalBrackets_fst_sum (base : ℚ) (bs : List Bracket) :
    (evalBrackets base bs).1 =
      (bs.map fun b => amendedWidth base b * (b.rate / 100)).sum := by
  induction bs with
  | nil => simp [evalBrackets]
  | cons b rest ih =>
    by_cases h : b.min < base
    · simp only [evalBrackets, h, gt_iff_lt, if_true, List.map_cons, List.sum_cons]
      rw [amendedWidth_eq_widthOf h, ih]
    · simp only [evalBrackets, h, gt_iff_lt, if_false, List.map_cons, List.sum_cons]
      simp [amendedWidth, h, ih]

/-- Closed form for the breakdown list of the jsx bracket loop. -/
lemma evalBrackets_snd_eq (base : ℚ) (bs : List Bracket) :
    (evalBrackets base bs).2 =
      (bs.filter fun b => decide (0 < amendedWidth base b)).map
        fun b => ⟨amendedWidth base b, amendedWidth base b * (b.rate / 100)⟩ := by
  induction bs with
  | nil => simp [evalBrackets]
  | cons b rest ih =>
    by_cases h : b.min < base
    · by_cases hw : 0 < widthOf base b
      · have haw : 0 < amendedWidth base b := by rw [amendedWidth_eq_widthOf h]; exact hw
        simp only [evalBrackets, h, gt_iff_lt, if_true, hw, List.filter_cons]
        simp [haw, hw, amendedWidth_eq_widthOf h, ih]
      · have haw : ¬ 0 < amendedWidth base b := by rw [amendedWidth_eq_widthOf h]; exact hw
        simp only [evalBrackets, h, gt_iff_lt, if_true, hw, List.filter_cons]
        simp [haw, ih]
    · have haw : ¬ 0 < amendedWidth base b := by simp [amendedWidth, h]
      simp only [evalBrackets, h, gt_iff_lt, if_false, List.filter_cons]
      simp [haw, ih]

lemma evalBrackets_fst_nonneg {base : ℚ} {bs : List Bracket}
    (h : ∀ b ∈ bs, WellFormed b ∧ 0 ≤ b.rate) :
    0 ≤ (evalBrackets base bs).1 := by
  rw [evalBrackets_fst_sum]
  apply List.sum_nonneg
  intro x hx
  simp only [List.mem_map] at hx
  obtain ⟨b, hb, rfl⟩ := hx
  exact mul_nonneg (amendedWidth_nonneg (h b hb).1)
    (by have := (h b hb).2; positivity)

lemma evalBrackets_fst_mono {a c : ℚ} {bs : List Bracket}
    (h : ∀ b ∈ bs, WellFormed b ∧ 0 ≤ b.rate) (hac : a ≤ c) :
    (evalBrackets a bs).1 ≤ (evalBrackets c bs).1 := by
  rw [evalBrackets_fst_sum, evalBrackets_fst_sum]
  apply List.sum_le_sum
  intro b hb
  exact mul_le_mul_of_nonneg_right (amendedWidth_mono (h b hb).1 hac)
    (by have := (h b hb).2; positivity)

/-- With well-formed brackets the taxes recorded in the breakdown sum to
the accumulated tax: an entry is dropped only when its width (hence its
tax) would be zero anyway. -/
lemma evalBrackets_breakdown_sum {base : ℚ} {bs : List Bracket}
    (h : ∀ b ∈ bs, WellFormed b) :
    ((evalBrackets base bs).2.map Contribution.tax).sum =
      (evalBrackets base bs).1 := by
  induction bs with
  | nil => simp [evalBrackets]
  | cons b rest ih =>
    have hrest := ih fun x hx => h x (List.mem_cons_of_mem _ hx)
    by_cases hb : b.min < base
    · have hw : 0 < widthOf base b := widthOf_pos (h b (List.mem_cons_self _ _)) hb
      simp only [evalBrackets, hb, gt_iff_lt, if_true, hw]
      simp [hrest]
    · simp only [evalBrackets, hb, gt_iff_lt, if_false]
      exact hrest

lemma maltaBrackets_wf : ∀ b ∈ maltaBrackets, WellFormed b ∧ 0 ≤ b.rate := by
  intro b hb
  simp only [maltaBrackets, List.mem_cons, List.not_mem_nil, or_false] at hb
  rcases hb with rfl | rfl | rfl | rfl | rfl <;>
    exact ⟨by norm_num [WellFormed], by norm_num⟩

lemma franceBrackets_wf : ∀ b ∈ franceBrackets, WellFormed b ∧ 0 ≤ b.rate := by
  intro b hb
  simp only [franceBrackets, List.mem_cons, List.not_mem_nil, or_false] at hb
  rcases hb with rfl | rfl | rfl | rfl | rfl <;>
    exact ⟨by norm_num [WellFormed], by norm_num⟩

lemma franceParts_pos (isMarried : Bool) (dependents : ℕ) :
    0 < franceParts isMarried dependents := by
  unfold franceParts
  cases isMarried <;> simp <;> positivity

lemma malta_totalTax_mono {a c : ℚ} (isMarried : Bool) (dependents : ℕ)
    (hac : a ≤ c) :
    (calculateMaltaIncomeTax a isMarried dependents).totalTax ≤
      (calculateMaltaIncomeTax c isMarried dependents).totalTax := by
  simp only [calculateMaltaIncomeTax]
  exact max_le_max le_rfl
    (sub_le_sub_right (evalBrackets_fst_mono maltaBrackets_wf hac) _)

lemma france_totalTax_mono {a c : ℚ} (isMarried : Bool) (dependents : ℕ)
    (hac : a ≤ c) :
    (calculateFranceIncomeTax a isMarried dependents).totalTax ≤
      (calculateFranceIncomeTax c isMarried dependents).totalTax := by
  simp only [calculateFranceIncomeTax]
  have hp := franceParts_pos isMarried dependents
  have hq : a / franceParts isMarried dependents ≤
      c / franceParts isMarried dependents :=
    div_le_div_of_nonneg_right hac hp.le
  exact mul_le_mul_of_nonneg_right
    (evalBrackets_fst_mono franceBrackets_wf hq) hp.le

lemma genericTax_mono {a c : ℚ} (hac : a ≤ c) :
    a * ((if a ≤ 50000 then (20 : ℚ) else if a ≤ 100000 then 30 else 40) / 100) ≤
      c * ((if c ≤ 50000 then (20 : ℚ) else if c ≤ 100000 then 30 else 40) / 100) := by
  split_ifs <;> linarith

lemma generic_totalTax_mono {a c : ℚ} (isMarried : Bool) (dependents : ℕ)
    (hac : a ≤ c) :
    (calculateGenericIncomeTax a isMarried dependents).totalTax ≤
      (calculateGenericIncomeTax c isMarried dependents).totalTax := by
  simp only [calculateGenericIncomeTax]
  exact max_le_max le_rfl (sub_le_sub_right (genericTax_mono hac) _)

/-! ### Claim theorems -/

/-- C1: for the Malta rule set, an income-tax calculation for a single
taxpayer with zero dependents and gross income €45,000 returns total
€8,435.00, effective rate 8435/45000 (≈18.74%, within 0.01 percentage
points of 18.74), and marginal rate 25%; the `income_tax` edge function
agrees, reporting `tax_due` 8435 and `effective_rate` 18.74. -/
theorem claim1_malta_income_45000 :
    (calculateMaltaIncomeTax 45000 false 0).totalTax = 8435 ∧
    (calculateMaltaIncomeTax 45000 false 0).effectiveRate = 8435 / 45000 * 100 ∧
    |(calculateMaltaIncomeTax 45000 false 0).effectiveRate - 1874 / 100| < 1 / 100 ∧
    (calculateMaltaIncomeTax 45000 false 0).marginalRate = 25 ∧
    edgeIncomeTax 45000 "single" =
      .ok { annual_income := 45000, tax_due := 8435, effective_rate := 1874 / 100 } := by
  have hev : (evalBrackets 45000 maltaBrackets).1 = 8435 := by
    norm_num [evalBrackets, maltaBrackets, widthOf, minCap, min_def]
  have htot : (calculateMaltaIncomeTax 45000 false 0).totalTax = 8435 := by
    simp [calculateMaltaIncomeTax, hev]
  have heff : (calculateMaltaIncomeTax 45000 false 0).effectiveRate = 8435 / 45000 * 100 := by
    simp [calculateMaltaIncomeTax, hev]
  refine ⟨htot, heff, ?_, ?_, ?_⟩
  · rw [heff, show (8435 / 45000 * 100 : ℚ) - 1874 / 100 = 1 / 225 by norm_num,
      abs_of_nonneg (by norm_num : (0 : ℚ) ≤ 1 / 225)]
    norm_num
  · norm_num [calculateMaltaIncomeTax, getMarginalRate, marginalLoop, inBracket,
      maltaBrackets]
  · norm_num [edgeIncomeTax, edgeLoop, edgeSingleBrackets, roundTo2, round_eq,
      min_def]

/-- C2 counterexample: at base 10,000 over the Malta brackets, the jsx
loop records taxable widths 9,101 and 900 for the first two brackets,
whereas the claimed formula `min(base, upperBound) - lowerBound` (clamped)
gives 9,100 and 899 — so the evaluator does not assign the claimed width. -/
theorem claim2_width_formula_cex :
    (evalBrackets 10000 maltaBrackets).2.map Contribution.taxableAmount = [9101, 900] ∧
    maltaBrackets.map (claimWidth 10000) = [9100, 899, 0, 0, 0] ∧
    ((900 : ℚ) ≠ 899) := by
  refine ⟨?_, ?_, by norm_num⟩
  · norm_num [evalBrackets, maltaBrackets, widthOf, minCap, min_def]
  · norm_num [maltaBrackets, claimWidth, min_def, max_def]

/-- C2 amended: for every bracket sequence and base, the jsx loop gives a
bracket with `base > lowerBound` the taxable width
`min(base, upperBound) - lowerBound + 1` (for the unbounded last bracket
`base - lowerBound + 1`), contributing `width * rate`; a bracket with
`base <= lowerBound` is skipped and contributes nothing; the breakdown
lists exactly the brackets whose width is positive, in order. -/
theorem claim2_bracket_loop_closed_form (base : ℚ) (bs : List Bracket) :
    (evalBrackets base bs).1 =
      (bs.map fun b => amendedWidth base b * (b.rate / 100)).sum ∧
    (evalBrackets base bs).2 =
      (bs.filter fun b => decide (0 < amendedWidth base b)).map
        fun b => ⟨amendedWidth base b, amendedWidth base b * (b.rate / 100)⟩ :=
  ⟨evalBrackets_fst_sum base bs, evalBrackets_snd_eq base bs⟩

/-- C3 counterexample: for a married Malta taxpayer with gross income
€45,000 the breakdown taxes sum to 8,435 while the returned total is
7,835 (the €600 married allowance is subtracted from the total but not
reflected in the breakdown) — a 600-unit gap, far beyond the 0.01
tolerance. -/
theorem claim3_breakdown_sum_cex :
    ((calculateMaltaIncomeTax 45000 true 0).breakdown.map Contribution.tax).sum = 8435 ∧
    (calculateMaltaIncomeTax 45000 true 0).totalTax = 7835 ∧
    ¬ (|(8435 : ℚ) - 7835| ≤ 1 / 100) := by
  refine ⟨?_, ?_, ?_⟩
  · norm_num [calculateMaltaIncomeTax, evalBrackets, maltaBrackets, widthOf,
      minCap, min_def]
  · norm_num [calculateMaltaIncomeTax, evalBrackets, maltaBrackets, widthOf,
      minCap, min_def]
  · rw [show (8435 : ℚ) - 7835 = 600 by norm_num,
      abs_of_nonneg (by norm_num : (0 : ℚ) ≤ 600)]
    norm_num

/-- C3 amended: the breakdown taxes always sum to the raw bracket tax, so
the sum equals the returned total exactly for single taxpayers with zero
dependents; in general Malta's total is `max 0 (sum - allowances)` and
France's total is `quotientParts * sum`. -/
theorem claim3_breakdown_vs_total (income : ℚ) (isMarried : Bool) (dependents : ℕ) :
    (calculateMaltaIncomeTax income isMarried dependents).totalTax =
      max 0 (((calculateMaltaIncomeTax income isMarried dependents).breakdown.map
        Contribution.tax).sum - maltaAllowances isMarried dependents) ∧
    (calculateFranceIncomeTax income isMarried dependents).totalTax =
      ((calculateFranceIncomeTax income isMarried dependents).breakdown.map
        Contribution.tax).sum * franceParts isMarried dependents ∧
    ((calculateMaltaIncomeTax income false 0).breakdown.map Contribution.tax).sum =
      (calculateMaltaIncomeTax income false 0).totalTax ∧
    ((calculateFranceIncomeTax income false 0).breakdown.map Contribution.tax).sum =
      (calculateFranceIncomeTax income false 0).totalTax := by
  have hmt : ∀ m d, ((calculateMaltaIncomeTax income m d).breakdown.map
      Contribution.tax).sum = (evalBrackets income maltaBrackets).1 := by
    intro m d
    simp only [calculateMaltaIncomeTax]
    exact evalBrackets_breakdown_sum fun b hb => (maltaBrackets_wf b hb).1
  have hfr : ∀ m d, ((calculateFranceIncomeTax income m d).breakdown.map
      Contribution.tax).sum =
      (evalBrackets (income / franceParts m d) franceBrackets).1 := by
    intro m d
    simp only [calculateFranceIncomeTax]
    exact evalBrackets_breakdown_sum fun b hb => (franceBrackets_wf b hb).1
  refine ⟨?_, ?_, ?_, ?_⟩
  · rw [hmt]
    simp [calculateMaltaIncomeTax, maltaAllowances]
  · rw [hfr]
    simp [calculateFranceIncomeTax]
  · rw [hmt]
    simp only [calculateMaltaIncomeTax]
    have h0 := @evalBrackets_fst_nonneg income maltaBrackets maltaBrackets_wf
    simp
    linarith [h0]
  · rw [hfr]
    simp [calculateFranceIncomeTax, franceParts]

/-- C4: the code computes Malta stamp duty as a single flat rate (0% for
a first-time buyer), so property value €200,000 with
`isFirstTimeBuyer = true` yields €0 — not the €1,000 that the banded
schedule (0% on the first €150,000, 2% on the next €50,000) documented in
the repository's own knowledge base prescribes. -/
theorem claim4_stamp_duty_flat_rate_bug :
    calculatePropertyTax "MT" 200000 true =
      { propertyValue := 200000, taxRate := 0, propertyTax := 0,
        isFirstTimeBuyer := true } ∧
    min (200000 : ℚ) 150000 * 0 + max 0 ((200000 : ℚ) - 150000) * (2 / 100) = 1000 ∧
    ((0 : ℚ) ≠ 1000) := by
  refine ⟨?_, ?_, by norm_num⟩
  · simp [calculatePropertyTax]
  · norm_num [min_def, max_def]

/-- C5 counterexample: the `income_tax` edge function rejects
`annual_income = 0` with an error instead of succeeding with total 0. -/
theorem claim5_edge_rejects_zero_cex :
    edgeIncomeTax 0 "single" = .error "Valid annual income is required" := by
  simp [edgeIncomeTax]

/-- C5 amended: in the client calculators a zero taxable base always
succeeds with total 0, effective rate 0 and an empty (or all-zero)
breakdown, for every jurisdiction and calculation type; the `income_tax`
edge function instead rejects a zero income as invalid. -/
theorem claim5_zero_base (jurisdiction ms : String) (isMarried : Bool)
    (dependents : ℕ) (vatRate : ℚ) (isFirstTimeBuyer : Bool) :
    (calculateIncomeTax jurisdiction 0 isMarried dependents).totalTax = 0 ∧
    (calculateIncomeTax jurisdiction 0 isMarried dependents).effectiveRate = 0 ∧
    (calculateIncomeTax jurisdiction 0 isMarried dependents).breakdown = [] ∧
    (calculateVAT 0 vatRate).vatAmount = 0 ∧
    (calculateVAT 0 vatRate).totalAmount = 0 ∧
    (calculateCorporateTax jurisdiction 0 0).corporateTax = 0 ∧
    (calculatePropertyTax jurisdiction 0 isFirstTimeBuyer).propertyTax = 0 ∧
    edgeIncomeTax 0 ms = .error "Valid annual income is required" := by
  have hAllow : (0 : ℚ) ≤ (if isMarried then (600 : ℚ) else 0) + dependents * 300 := by
    cases isMarried <;> simp
    all_goals positivity
  have hAllowG : (0 : ℚ) ≤ (if isMarried then (2000 : ℚ) else 1000) + dependents * 500 := by
    cases isMarried <;> simp
    all_goals positivity
  have hMT : evalBrackets 0 maltaBrackets = (0, []) := by
    norm_num [evalBrackets, maltaBrackets]
  have hFR : evalBrackets 0 franceBrackets = (0, []) := by
    norm_num [evalBrackets, franceBrackets]
  have hInc : ∀ j, (calculateIncomeTax j 0 isMarried dependents).totalTax = 0 ∧
      (calculateIncomeTax j 0 isMarried dependents).effectiveRate = 0 ∧
      (calculateIncomeTax j 0 isMarried dependents).breakdown = [] := by
    intro j
    unfold calculateIncomeTax
    split_ifs
    · simp [calculateMaltaIncomeTax, hMT]
      linarith [hAllow]
    · simp [calculateFranceIncomeTax, zero_div, hFR]
    · simp [calculateGenericIncomeTax]
      linarith [hAllowG]
  refine ⟨(hInc jurisdiction).1, (hInc jurisdiction).2.1, (hInc jurisdiction).2.2,
    by simp [calculateVAT], by simp [calculateVAT], ?_, by simp [calculatePropertyTax],
    by simp [edgeIncomeTax]⟩
  simp [calculateCorporateTax]

/-- C6: for a fixed jurisdiction, marital status and dependent count, the
client income-tax total is monotone non-decreasing in the taxable base,
for every jurisdiction string (Malta, France and the generic fallback). -/
theorem claim6_income_tax_monotone (jurisdiction : String) (isMarried : Bool)
    (dependents : ℕ) (a c : ℚ) (hac : a ≤ c) :
    (calculateIncomeTax jurisdiction a isMarried dependents).totalTax ≤
      (calculateIncomeTax jurisdiction c isMarried dependents).totalTax := by
  unfold calculateIncomeTax
  split_ifs
  · exact malta_totalTax_mono isMarried dependents hac
  · exact france_totalTax_mono isMarried dependents hac
  · exact generic_totalTax_mono isMarried dependents hac

/-- C6 witness: monotonicity instantiated for Malta at bases 1,000 and
2,000. -/
theorem claim6_income_tax_monotone_witness :
    (1000 : ℚ) ≤ 2000 ∧
    (calculateIncomeTax "MT" 1000 false 0).totalTax ≤
      (calculateIncomeTax "MT" 2000 false 0).totalTax :=
  ⟨by norm_num, claim6_income_tax_monotone "MT" false 0 1000 2000 (by norm_num)⟩

/-- C7 counterexample: for France, profit €50,000 with no expenses is
taxed at the standard 25% on the whole base — €12,500 — not the €8,250
that two-band marginal evaluation (15% up to €42,500, 25% above) gives. -/
theorem claim7_corporate_cliff_cex :
    (calculateCorporateTax "FR" 50000 0).corporateTax = 12500 ∧
    min (50000 : ℚ) 42500 * (15 / 100) + max 0 ((50000 : ℚ) - 42500) * (25 / 100) = 8250 ∧
    ((12500 : ℚ) ≠ 8250) := by
  refine ⟨?_, ?_, by norm_num⟩
  · have h : ("FR" : String) ≠ "MT" := by decide
    norm_num [calculateCorporateTax, h, max_def]
  · norm_num [min_def, max_def]

/-- C7 amended: the taxable base is `max 0 (profit - expenses)` for every
jurisdiction; for France the 15%/25% rate is selected by comparing the
whole base with the €42,500 threshold and applied to the whole base (a
cliff), not marginally per band. -/
theorem claim7_corporate_tax_model (jurisdiction : String) (profit expenses : ℚ) :
    (calculateCorporateTax jurisdiction profit expenses).taxableProfit =
      max 0 (profit - expenses) ∧
    (calculateCorporateTax "FR" profit expenses).corporateTax =
      max 0 (profit - expenses) *
        ((if max 0 (profit - expenses) ≤ 42500 then (15 : ℚ) else 25) / 100) := by
  have h : ("FR" : String) ≠ "MT" := by decide
  exact ⟨by simp [calculateCorporateTax], by simp [calculateCorporateTax, h]⟩

/-- C8 counterexample: the client dispatcher accepts a negative income
(−5,000) without any error — it returns a normal result with total 0 —
and coerces an unparseable income field to 0 instead of rejecting it. -/
theorem claim8_no_client_validation_cex :
    calculateTaxClient "income" "MT" (some (-5000)) false (some 0)
        none none none none false =
      .income (calculateMaltaIncomeTax (-5000) false 0) ∧
    (calculateMaltaIncomeTax (-5000) false 0).totalTax = 0 ∧
    calculateTaxClient "income" "MT" none false (some 0)
        none none none none false =
      .income (calculateMaltaIncomeTax 0 false 0) ∧
    ClientResult.isError (calculateTaxClient "income" "MT" (some (-5000)) false
      (some 0) none none none none false) = false := by
  refine ⟨?_, ?_, ?_, ?_⟩
  · simp [calculateTaxClient, calculateIncomeTax]
  · norm_num [calculateMaltaIncomeTax, evalBrackets, maltaBrackets]
  · simp [calculateTaxClient, calculateIncomeTax]
  · simp [calculateTaxClient, calculateIncomeTax, ClientResult.isError]

/-- C8 amended: the client performs no input validation — a malformed
numeric field is coerced to 0 and a negative income is computed on
without error; only the `income_tax` edge function rejects a non-positive
income, failing immediately with an error. -/
theorem claim8_validation_amended (income : ℚ) (ms jurisdiction : String)
    (isMarried : Bool) (dependents : ℕ) (h : income ≤ 0) :
    edgeIncomeTax income ms = .error "Valid annual income is required" ∧
    calculateTaxClient "income" jurisdiction none isMarried (some dependents)
        none none none none false =
      .income (calculateIncomeTax jurisdiction 0 isMarried dependents) ∧
    calculateTaxClient "income" jurisdiction (some income) isMarried
        (some dependents) none none none none false =
      .income (calculateIncomeTax jurisdiction income isMarried dependents) := by
  exact ⟨by simp [edgeIncomeTax, h], by simp [calculateTaxClient],
    by simp [calculateTaxClient]⟩

/-- C8 witness: the amended statement at income −100 for Malta. -/
theorem claim8_validation_amended_witness :
    (-100 : ℚ) ≤ 0 ∧
    (edgeIncomeTax (-100) "single" = .error "Valid annual income is required" ∧
      calculateTaxClient "income" "MT" none false (some 0)
          none none none none false =
        .income (calculateIncomeTax "MT" 0 false 0) ∧
      calculateTaxClient "income" "MT" (some (-100)) false (some 0)
          none none none none false =
        .income (calculateIncomeTax "MT" (-100) false 0)) :=
  ⟨by norm_num, claim8_validation_amended (-100) "single" "MT" false 0 (by norm_num)⟩

/-- C9 counterexample: at base 9,100.5 — inside the unit gap between the
first two Malta brackets — `getMarginalRate` returns 35 (the last
bracket's rate) although no bracket contains the base and the base does
not exceed all finite upper bounds, so the claimed characterisation
fails. -/
theorem claim9_marginal_rate_cex :
    marginalClaimHolds (18201 / 2) maltaBrackets = false ∧
    getMarginalRate (18201 / 2) maltaBrackets = 35 := by
  constructor
  · norm_num [marginalClaimHolds, exceedsAllFinite, lastRate, getMarginalRate,
      marginalLoop, inBracket, maltaBrackets]
  · norm_num [getMarginalRate, marginalLoop, inBracket, maltaBrackets]

/-- C9 amended: over the Malta brackets the reported marginal rate is the
rate of the bracket containing the base when one exists; for every other
base — bases above all finite bounds, but also bases in the unit gaps
between brackets and negative bases — it is the last bracket's rate 35%. -/
theorem claim9_marginal_rate_closed_form (q : ℚ) :
    getMarginalRate q maltaBrackets =
      if 0 ≤ q ∧ q ≤ 9100 then 0
      else if 9101 ≤ q ∧ q ≤ 14500 then 15
      else if 14501 ≤ q ∧ q ≤ 19500 then 25
      else if 19501 ≤ q ∧ q ≤ 60000 then 25
      else 35 := by
  simp only [getMarginalRate, maltaBrackets, marginalLoop, inBracket,
    Bool.and_eq_true, decide_eq_true_eq, Bool.and_true]
  norm_num

/-- C10: for every jurisdiction other than `"MT"` and `"FR"`, an
income-tax calculation succeeds with the generic result: tax is the base
times a single flat rate (20% when base ≤ 50,000, 30% when ≤ 100,000,
else 40%) minus allowances `(married ? 2000 : 1000) + 500·dependents`,
floored at 0, and the marginal rate is that flat rate. -/
theorem claim10_generic_income_tax (jurisdiction : String) (income : ℚ)
    (isMarried : Bool) (dependents : ℕ)
    (hMT : jurisdiction ≠ "MT") (hFR : jurisdiction ≠ "FR") :
    calculateTaxClient "income" jurisdiction (some income) isMarried
        (some dependents) none none none none false =
      .income (calculateGenericIncomeTax income isMarried dependents) ∧
    (calculateIncomeTax jurisdiction income isMarried dependents).totalTax =
      max 0 (income *
          ((if income ≤ 50000 then (20 : ℚ) else if income ≤ 100000 then 30 else 40) / 100) -
        ((if isMarried then (2000 : ℚ) else 1000) + dependents * 500)) ∧
    (calculateIncomeTax jurisdiction income isMarried dependents).marginalRate =
      (if income ≤ 50000 then (20 : ℚ) else if income ≤ 100000 then 30 else 40) := by
  refine ⟨?_, ?_, ?_⟩ <;>
    simp [calculateTaxClient, calculateIncomeTax, calculateGenericIncomeTax, hMT, hFR]

/-- C10 witness: the generic path instantiated at jurisdiction "DE",
income 60,000, single, one dependent. -/
theorem claim10_generic_income_tax_witness :
    ("DE" : String) ≠ "MT" ∧ ("DE" : String) ≠ "FR" ∧
    (calculateTaxClient "income" "DE" (some 60000) false (some 1)
          none none none none false =
        .income (calculateGenericIncomeTax 60000 false 1) ∧
      (calculateIncomeTax "DE" 60000 false 1).totalTax =
        max 0 ((60000 : ℚ) *
            ((if (60000 : ℚ) ≤ 50000 then (20 : ℚ) else if (60000 : ℚ) ≤ 100000 then 30 else 40) / 100) -
          ((if (false : Bool) then (2000 : ℚ) else 1000) + (1 : ℕ) * 500)) ∧
      (calculateIncomeTax "DE" 60000 false 1).marginalRate =
        (if (60000 : ℚ) ≤ 50000 then (20 : ℚ) else if (60000 : ℚ) ≤ 100000 then 30 else 40)) :=
  ⟨by decide, by decide,
    claim10_generic_income_tax "DE" 60000 false 1 (by decide) (by decide)⟩

end TaxAgent
